import Mathlib

/-!
Shallow embedding of the `social` app of the py-social-media-api repository
(`src/social/views.py`, routed by `src/social/urls.py`), together with proofs
about the embedded handlers.

Conventions of the embedding:
* Database rows become Lean structures; a table is a `List` of rows, mutated by
  explicit state passing.
* Django many-to-many collections are lists with set-like add and remove.
* Python exceptions become an explicit `Except` with a `PyError` payload.
* Framework glue used by the handlers (DRF detail-action dispatch, the mapping
  from raised exceptions to HTTP statuses) is embedded with its documented
  semantics: a `rest_framework` ValidationError raised by
  `is_valid(raise_exception=True)` yields a 400 response carrying the errors,
  an `Http404` yields 404, and any other uncaught Python exception is surfaced
  by Django as a 500 server error.
* Parts of the repository that are not under `src/` (models.py, serializers.py)
  are modelled from the spec where a claim needs them; each such definition
  carries a doc comment starting with `Modelled from the spec:`.
-/

namespace Social

/-- Python exception kinds raised by the embedded code paths. -/
inductive PyError where
  | valueError
  | typeError
  | attributeError
  | multipleObjectsReturned
  deriving DecidableEq, Repr

deriving instance DecidableEq for Except

/-- Response payloads produced by the handlers in views.py: a bare string body,
a detail dictionary with one message, a serializer error payload, or an empty
body. -/
inductive RespBody where
  | empty
  | text (s : String)
  | detail (s : String)
  | errors (e : List String)
  deriving DecidableEq, Repr

/-- An HTTP response: numeric status plus body. -/
structure HttpResponse where
  status : Nat
  body : RespBody
  deriving DecidableEq, Repr

/-- Django model instances are compared by concrete model class and primary
key; a `User` row and a `Profile` row are never equal even at the same pk.
`ModelKind` records the concrete model of a reference stored in the follow
relation. -/
inductive ModelKind where
  | user
  | profile
  deriving DecidableEq, Repr

/-- A reference to a model row: concrete model class plus primary key. -/
structure ModelRef where
  kind : ModelKind
  pk : Nat
  deriving DecidableEq, Repr

/-- Modelled from the spec: models.py is not under src/. A post row: primary
key, author (the `user` foreign key), content, optional image asset, and the
many-to-many hashtag id set. -/
structure Post where
  pk : Nat
  user : Nat
  content : String
  image : Option String
  hashtags : List Int
  deriving DecidableEq, Repr

/-- Modelled from the spec: models.py is not under src/. A comment row belongs
to one post and one authoring user. -/
structure CommentRec where
  pk : Nat
  postPk : Nat
  userPk : Nat
  content : String
  deriving DecidableEq, Repr

/-- Modelled from the spec: models.py is not under src/. A like row ties one
post to one user with the boolean flag written by views.py. -/
structure LikeRec where
  postPk : Nat
  userPk : Nat
  is_liked : Bool
  deriving DecidableEq, Repr

/-- Modelled from the spec: models.py is not under src/. A profile row is the
1:1 extension of a user with bio fields and the follow relation; per the spec
the follow relation accepts bare user references, so entries are `ModelRef`s. -/
structure ProfileRec where
  userPk : Nat
  first_name : Option String
  last_name : Option String
  bio : Option String
  email : Option String
  follow : List ModelRef
  deriving DecidableEq, Repr

/-- The persistent store: one list per table. -/
structure Store where
  posts : List Post
  profiles : List ProfileRec
  comments : List CommentRec
  likes : List LikeRec
  deriving DecidableEq, Repr

/-- Django many-to-many `add`: inserts the reference unless already related. -/
def m2mAdd (s : List ModelRef) (x : ModelRef) : List ModelRef :=
  if x ∈ s then s else s ++ [x]

/-- Django many-to-many `remove`: deletes the relation row if present, a no-op
otherwise. -/
def m2mRemove (s : List ModelRef) (x : ModelRef) : List ModelRef :=
  s.filter (fun y => decide (y ≠ x))

/-- `ProfileViewSet.follow_user` (views.py lines 145-164), acting on the
follow set of the profile resolved from the URL path id. The body first calls
`profile.follow_profiles.add(user_to_follow)`, then evaluates the guard
`profile != user_to_follow and user_to_follow not in profile.follow_profiles.all()`,
returning the success response when the guard holds and the rejection response
otherwise. -/
def follow_user (followSet : List ModelRef) (profilePk targetPk : Nat) :
    List ModelRef × HttpResponse :=
  let profile : ModelRef := ⟨ModelKind.profile, profilePk⟩
  let user_to_follow : ModelRef := ⟨ModelKind.user, targetPk⟩
  let s1 := m2mAdd followSet user_to_follow
  if profile ≠ user_to_follow ∧ user_to_follow ∉ s1 then
    (m2mAdd s1 user_to_follow,
     ⟨200, RespBody.text "User was followed successfully."⟩)
  else
    (s1, ⟨400, RespBody.text "You cannot follow yourself."⟩)

/-- Body of `ProfileViewSet.unfollow_user` (views.py lines 174-181): removes
the requesting user from the resolved profile's follow set and answers 200. -/
def unfollow_user (followSet : List ModelRef) (requesterPk : Nat) :
    List ModelRef × HttpResponse :=
  (m2mRemove followSet ⟨ModelKind.user, requesterPk⟩,
   ⟨200, RespBody.detail "You have successfully unsubscribed from this profile."⟩)

/-- The parameter names of `unfollow_user` as written in the source
(views.py line 172: `def unfollow_user(self, request):`). -/
def unfollow_user_params : List String := ["self", "request"]

/-- The keyword arguments a DRF detail action is invoked with: the router
captures the path id as the named group `pk` and dispatch forwards it to the
handler as a keyword argument. -/
def detail_action_kwargs : List String := ["pk"]

/-- Invoking the unfollow handler through DRF dispatch: Python binds each
forwarded keyword argument to a parameter of that name, raising `TypeError`
when no such parameter exists. -/
def unfollow_dispatch (followSet : List ModelRef) (requesterPk pathPk : Nat) :
    Except PyError (List ModelRef × HttpResponse) :=
  if detail_action_kwargs.all (fun k => decide (k ∈ unfollow_user_params)) then
    Except.ok (unfollow_user followSet requesterPk)
  else
    Except.error PyError.typeError

/-- The unfollow endpoint as observed over HTTP: an uncaught Python exception
in the handler is surfaced by Django as a 500 server error and the store is
left unchanged. -/
def unfollow_endpoint (followSet : List ModelRef) (requesterPk pathPk : Nat) :
    List ModelRef × HttpResponse :=
  match unfollow_dispatch followSet requesterPk pathPk with
  | Except.ok r => r
  | Except.error _ => (followSet, ⟨500, RespBody.empty⟩)

/-- The public attributes of the `rest_framework.viewsets` module (the external
collaborator imported by views.py line 4). -/
def viewsets_attrs : List String :=
  ["ViewSet", "GenericViewSet", "ReadOnlyModelViewSet", "ModelViewSet",
   "ViewSetMixin"]

/-- The base-class attribute named in the `LikeViewSet` declaration
(views.py line 199: `class LikeViewSet(viewsets.ModelViewSetw):`). -/
def likeViewSet_base : String := "ModelViewSetw"

/-- Python attribute lookup on a module: `some` when the attribute exists,
`none` (an AttributeError) otherwise. -/
def resolve_attr (attrs : List String) (name : String) : Option String :=
  if name ∈ attrs then some name else none

/-- Outcome of executing the `class LikeViewSet(...)` statement at import
time: the class is defined when its base expression resolves, and the whole
module import fails with AttributeError otherwise. -/
inductive ClassDefOutcome where
  | defined (base : String)
  | importError
  deriving DecidableEq, Repr

/-- Executing views.py line 199. -/
def define_LikeViewSet : ClassDefOutcome :=
  match resolve_attr viewsets_attrs likeViewSet_base with
  | some b => ClassDefOutcome.defined b
  | none => ClassDefOutcome.importError

/-- A run of decimal digits as accepted inside a Python integer literal:
nonempty, and any underscore sits between two digits. -/
def digitRun : List Char → Bool
  | [] => false
  | [c] => c.isDigit
  | c :: '_' :: rest => c.isDigit && digitRun rest
  | c :: rest => c.isDigit && digitRun rest

/-- Numeric value of a digit run, ignoring grouping underscores. -/
def digitsVal (cs : List Char) : Nat :=
  (cs.filter (fun c => decide (c ≠ '_'))).foldl
    (fun acc c => 10 * acc + (c.toNat - 48)) 0

/-- The Python builtin `int` applied to the characters of a string: strips
surrounding whitespace, accepts an optional sign followed by a digit run, and
raises `ValueError` on anything else. -/
def pythonIntChars (chars : List Char) : Except PyError Int :=
  let core :=
    ((chars.dropWhile Char.isWhitespace).reverse.dropWhile
      Char.isWhitespace).reverse
  match core with
  | '+' :: rest =>
      if digitRun rest then Except.ok (digitsVal rest : Int)
      else Except.error PyError.valueError
  | '-' :: rest =>
      if digitRun rest then Except.ok (-(digitsVal rest : Int))
      else Except.error PyError.valueError
  | rest =>
      if digitRun rest then Except.ok (digitsVal rest : Int)
      else Except.error PyError.valueError

/-- The Python builtin `int` on a string. -/
def pythonInt (s : String) : Except PyError Int :=
  pythonIntChars s.toList

/-- The Python string method `split(",")`, over the characters of the string:
`"".split(",")` is `[""]`, and each comma opens a new (possibly empty)
token. -/
def splitOnComma (cs : List Char) : List (List Char) :=
  match cs with
  | [] => [[]]
  | c :: rest =>
    let r := splitOnComma rest
    if c = ',' then [] :: r
    else
      match r with
      | [] => [[c]]
      | g :: gs => (c :: g) :: gs

/-- The list comprehension of `PostViewSet._params_to_ints` (views.py lines
38-40) over the split token list: evaluates `int` left to right and
propagates the first exception. -/
def params_to_ints_list : List (List Char) → Except PyError (List Int)
  | [] => Except.ok []
  | t :: rest =>
    match pythonIntChars t with
    | Except.error e => Except.error e
    | Except.ok i =>
      match params_to_ints_list rest with
      | Except.error e => Except.error e
      | Except.ok is => Except.ok (i :: is)

/-- `PostViewSet._params_to_ints` (views.py lines 37-40):
`[int(str_id) for str_id in qs.split(",")]`. -/
def params_to_ints (qs : String) : Except PyError (List Int) :=
  params_to_ints_list (splitOnComma qs.toList)

/-- The SQL row set produced by `queryset.filter(hashtags__id__in=ids)`
(views.py line 50): an inner join with the post-hashtag link table, yielding
one row per (post, matching hashtag) pair, so a post appears once per listed
hashtag it carries. -/
def joinHashtagsIn (posts : List Post) (ids : List Int) : List Post :=
  match posts with
  | [] => []
  | p :: rest =>
      ((p.hashtags.filter (fun h => ids.contains h)).map (fun _ => p))
        ++ joinHashtagsIn rest ids

/-- SQL `DISTINCT` over post rows (views.py line 52 `.distinct()`): keeps the
first row of each primary key. -/
def distinctByPk (posts : List Post) : List Post :=
  match posts with
  | [] => []
  | p :: rest =>
      p :: distinctByPk (rest.filter (fun q => decide (q.pk ≠ p.pk)))
termination_by posts.length
decreasing_by
  simp only [List.length_cons]
  exact Nat.lt_succ_of_le (List.length_filter_le _ _)

/-- `PostViewSet.get_queryset` (views.py lines 42-52): reads the `hashtags`
query parameter; a missing parameter or the empty string is falsy in Python,
so no filter is applied; otherwise the parameter is parsed by
`_params_to_ints` (whose `ValueError` propagates) and the queryset is
restricted to posts carrying one of the listed hashtag ids; `.distinct()` is
applied in every case. -/
def get_queryset (posts : List Post) (hashtagsParam : Option String) :
    Except PyError (List Post) :=
  match hashtagsParam with
  | none => Except.ok (distinctByPk posts)
  | some s =>
    if s = "" then Except.ok (distinctByPk posts)
    else
      match params_to_ints s with
      | Except.error e => Except.error e
      | Except.ok ids => Except.ok (distinctByPk (joinHashtagsIn posts ids))

/-- The post-list endpoint as observed over HTTP: the queryset from
`get_queryset` is serialized on success; an uncaught `ValueError` raised while
building it is surfaced by Django as a 500 server error carrying no results. -/
def post_list (posts : List Post) (hashtagsParam : Option String) :
    Nat × List Post :=
  match get_queryset posts hashtagsParam with
  | Except.ok qs => (200, qs)
  | Except.error _ => (500, [])

/-- Modelled from the spec: serializers.py is not under src/. The outcome of
`PostImageSerializer` validation on the submitted payload: either valid, or
invalid with an error payload. -/
inductive SerializerCheck where
  | valid
  | invalid (errors : List String)
  deriving DecidableEq, Repr

/-- The `errors` property of a serializer after `is_valid` ran: the error
payload when validation failed, the empty dictionary when it succeeded. -/
def serializerErrors : SerializerCheck → List String
  | SerializerCheck.valid => []
  | SerializerCheck.invalid e => e

/-- `PostViewSet.upload_image` (views.py lines 60-72): resolves the post
(404 when missing), runs `serializer.is_valid(raise_exception=True)` — on
failure the raised ValidationError is turned into a 400 response carrying the
errors by the framework — and on success falls through to
`return Response(serializer.errors, status=400)`. No branch writes to the
store. -/
def upload_image (st : Store) (postPk : Nat) (check : SerializerCheck) :
    Store × HttpResponse :=
  match st.posts.find? (fun p => p.pk == postPk) with
  | none => (st, ⟨404, RespBody.empty⟩)
  | some _ =>
    match check with
    | SerializerCheck.invalid errs => (st, ⟨400, RespBody.errors errs⟩)
    | SerializerCheck.valid => (st, ⟨400, RespBody.errors []⟩)

/-- The lookup predicate of `get_object_or_404(Like, post=post, user=user)`
(views.py line 85). -/
def likePred (postPk userPk : Nat) (l : LikeRec) : Bool :=
  l.postPk == postPk && l.userPk == userPk

/-- `PostViewSet.likes` (views.py lines 80-90), the like toggle: a single
matching row is deleted; none raises Http404, caught, and a row with
`is_liked=True` is created; several matching rows make the underlying
`Like.objects.get` raise MultipleObjectsReturned, which the `except Http404`
clause does not catch. -/
def likes (ls : List LikeRec) (postPk userPk : Nat) :
    Except PyError (List LikeRec × HttpResponse) :=
  match ls.filter (likePred postPk userPk) with
  | [] => Except.ok (ls ++ [⟨postPk, userPk, true⟩], ⟨200, RespBody.empty⟩)
  | [_] => Except.ok (ls.eraseP (likePred postPk userPk), ⟨200, RespBody.empty⟩)
  | _ => Except.error PyError.multipleObjectsReturned

/-- `LikeViewSet` create (views.py lines 199-203): the class statement names
the base `viewsets.ModelViewSetw`; executing the create path first requires
the class, so the outcome of `define_LikeViewSet` decides whether a row is
ever inserted. -/
def like_create (ls : List LikeRec) (postPk userPk : Nat) (flag : Bool) :
    Except PyError (List LikeRec) :=
  match define_LikeViewSet with
  | ClassDefOutcome.defined _ => Except.ok (ls ++ [⟨postPk, userPk, flag⟩])
  | ClassDefOutcome.importError => Except.error PyError.attributeError

/-- One request touching the Like table: the toggle action, a post deletion
(Modelled from the spec: cascade removes the dependent likes), a create
through the Like resource, or any of the remaining operations of the system,
none of which reads or writes Like rows. -/
inductive LikeStep where
  | toggle (postPk userPk : Nat)
  | cascadeDelete (postPk : Nat)
  | likeCreate (postPk userPk : Nat) (flag : Bool)
  | other

/-- Effect of one request on the Like table; a request that raises leaves the
store unchanged. -/
def applyLikeStep (ls : List LikeRec) : LikeStep → List LikeRec
  | LikeStep.toggle p u =>
    match likes ls p u with
    | Except.ok r => r.1
    | Except.error _ => ls
  | LikeStep.cascadeDelete p => ls.filter (fun l => decide (l.postPk ≠ p))
  | LikeStep.likeCreate p u f =>
    match like_create ls p u f with
    | Except.ok r => r
    | Except.error _ => ls
  | LikeStep.other => ls

/-- Like-table states reachable from the empty store through requests. -/
inductive LikeReachable : List LikeRec → Prop where
  | init : LikeReachable []
  | step (s : List LikeRec) (a : LikeStep) :
      LikeReachable s → LikeReachable (applyLikeStep s a)

/-- The invariant claimed of the Like table: at most one row per
(post, user) pair. -/
def likeInv (ls : List LikeRec) : Prop :=
  ∀ p u, (ls.filter (likePred p u)).length ≤ 1

/-- Modelled from the spec: serializers.py is not under src/. The validated
payload of `ProfileSerializer`: the bio fields and the follow list that
`perform_create` reads. -/
structure ProfilePayload where
  first_name : Option String
  last_name : Option String
  bio : Option String
  email : Option String
  follow : List ModelRef
  deriving DecidableEq, Repr

/-- A SQL UPDATE of the profile row keyed by the given user. -/
def profile_update (profiles : List ProfileRec) (userPk : Nat)
    (updated : ProfileRec) : List ProfileRec :=
  profiles.map (fun p => if p.userPk == userPk then updated else p)

/-- `ProfileViewSet.perform_create` (views.py lines 127-137):
`get_or_create` by the requesting user; only when a fresh row was created are
the payload fields copied onto it and saved; the (existing or new) row is then
installed as the serializer instance and returned. -/
def perform_create (profiles : List ProfileRec) (userPk : Nat)
    (payload : ProfilePayload) : List ProfileRec × ProfileRec :=
  match profiles.find? (fun p => p.userPk == userPk) with
  | some p => (profiles, p)
  | none =>
    let fresh : ProfileRec := ⟨userPk, none, none, none, none, []⟩
    let updated : ProfileRec :=
      ⟨userPk, payload.first_name, payload.last_name, payload.bio,
       payload.email, payload.follow⟩
    (profile_update (profiles ++ [fresh]) userPk updated, updated)

/-- `CommentViewSet.get_queryset` (views.py lines 190-196): the comment list
is always restricted to rows authored by the requesting user. -/
def comment_list (comments : List CommentRec) (userPk : Nat) :
    List CommentRec :=
  comments.filter (fun c => c.userPk == userPk)

/-- An element just added by the many-to-many `add` is related afterwards. -/
theorem mem_m2mAdd_self (s : List ModelRef) (x : ModelRef) : x ∈ m2mAdd s x := by
  unfold m2mAdd
  split
  · assumption
  · simp

/-- C1: the follow guard reads the follow set only after the target was added
to it, so the membership conjunct of the guard is always false: every call
returns the rejection response with status 400, never the success response,
while the target nonetheless stays in the follow set. -/
theorem follow_user_always_rejects (s : List ModelRef) (ppk tpk : Nat) :
    (follow_user s ppk tpk).2 =
      ⟨400, RespBody.text "You cannot follow yourself."⟩ ∧
    (⟨ModelKind.user, tpk⟩ : ModelRef) ∈ (follow_user s ppk tpk).1 := by
  have hmem := mem_m2mAdd_self s (⟨ModelKind.user, tpk⟩ : ModelRef)
  have hcond : ¬((⟨ModelKind.profile, ppk⟩ : ModelRef) ≠ ⟨ModelKind.user, tpk⟩ ∧
      (⟨ModelKind.user, tpk⟩ : ModelRef) ∉ m2mAdd s ⟨ModelKind.user, tpk⟩) :=
    fun h => h.2 hmem
  simp only [follow_user]
  rw [if_neg hcond]
  exact ⟨rfl, hmem⟩

/-- C1, counterexample to the claim as stated: profile 1 follows user 2, a
fresh pair with an empty follow set, yet the call does not return the success
response; it returns the rejection response with status 400. -/
theorem follow_user_success_unreachable :
    (follow_user [] 1 2).2.status = 400 ∧
    (follow_user [] 1 2).2 ≠
      ⟨200, RespBody.text "User was followed successfully."⟩ := by decide

/-- C2: the base class named by the `LikeViewSet` declaration does not exist
in the `rest_framework.viewsets` module (the intended `ModelViewSet` does), so
executing the class statement fails at import time and no Like CRUD resource
is ever defined. -/
theorem likeViewSet_base_unresolved :
    define_LikeViewSet = ClassDefOutcome.importError ∧
    resolve_attr viewsets_attrs likeViewSet_base = none ∧
    resolve_attr viewsets_attrs "ModelViewSet" = some "ModelViewSet" := by
  decide

/-- C3: for every call of `upload_image` on an existing post, whatever the
validation outcome, the response is a 400 carrying the serializer error
payload; no success response exists. -/
theorem upload_image_always_400 (st : Store) (postPk : Nat)
    (c : SerializerCheck)
    (h : (st.posts.find? (fun p => p.pk == postPk)).isSome) :
    (upload_image st postPk c).2 =
      ⟨400, RespBody.errors (serializerErrors c)⟩ := by
  unfold upload_image
  cases hf : st.posts.find? (fun p => p.pk == postPk) with
  | none => rw [hf] at h; exact absurd h (by simp)
  | some p => cases c <;> simp [serializerErrors]

/-- C3 witness: a store holding post 1; even a successfully validating
payload is answered with a 400 carrying the (empty) error payload. -/
theorem upload_image_always_400_witness :
    ((Store.mk [⟨1, 7, "hello", none, [1]⟩] [] [] []).posts.find?
      (fun p => p.pk == 1)).isSome ∧
    (upload_image (Store.mk [⟨1, 7, "hello", none, [1]⟩] [] [] []) 1
        SerializerCheck.valid).2 =
      ⟨400, RespBody.errors (serializerErrors SerializerCheck.valid)⟩ :=
  ⟨by decide,
   upload_image_always_400 (Store.mk [⟨1, 7, "hello", none, [1]⟩] [] [] []) 1
     SerializerCheck.valid (by decide)⟩

/-- C10: `upload_image` never saves the serializer, so whatever the submitted
payload and whether or not the post exists, the store is returned exactly as
it was. -/
theorem upload_image_frame (st : Store) (postPk : Nat) (c : SerializerCheck) :
    (upload_image st postPk c).1 = st := by
  unfold upload_image
  split
  · rfl
  · cases c <;> rfl

/-- C4: DRF dispatch forwards the captured path id as the keyword argument
`pk`, which the written parameter list of `unfollow_user` cannot bind, so
every call raises TypeError before the body runs: the response is a 500 and
the follow set is unchanged — the requester is never removed and no success
response is produced. -/
theorem unfollow_endpoint_type_error (s : List ModelRef) (rpk ppk : Nat) :
    unfollow_endpoint s rpk ppk = (s, ⟨500, RespBody.empty⟩) := rfl

/-- A token on which `int` raises makes the whole comprehension raise. -/
theorem params_to_ints_list_error (l : List (List Char))
    (hbad : ∃ t ∈ l, pythonIntChars t = Except.error PyError.valueError) :
    ∃ e, params_to_ints_list l = Except.error e := by
  induction l with
  | nil => simp at hbad
  | cons t rest ih =>
    obtain ⟨t0, ht0, herr⟩ := hbad
    unfold params_to_ints_list
    cases hp : pythonIntChars t with
    | error e => exact ⟨e, rfl⟩
    | ok i =>
      rcases List.mem_cons.mp ht0 with rfl | hmem
      · rw [hp] at herr; exact absurd herr (by simp)
      · obtain ⟨e, he⟩ := ih ⟨t0, hmem, herr⟩
        rw [he]
        exact ⟨e, rfl⟩

/-- C5, counterexample to the claim as stated: listing with
`?hashtags=1,a` does not produce a 400-class status; the uncaught ValueError
surfaces as a 500. -/
theorem post_list_bad_token_not_400_class :
    (post_list [] (some "1,a")).1 = 500 ∧
    ¬(400 ≤ (post_list [] (some "1,a")).1 ∧
      (post_list [] (some "1,a")).1 < 500) := by decide

/-- C5: a non-empty hashtags parameter holding a token `int` rejects makes the
whole request fail — no partial filtering, no results — but the failure is an
uncaught ValueError surfaced as a 500 server error, not a 400-class error. -/
theorem post_list_bad_token_500 (posts : List Post) (s : String)
    (hne : ¬(s = ""))
    (hbad : ∃ t ∈ splitOnComma s.toList,
      pythonIntChars t = Except.error PyError.valueError) :
    post_list posts (some s) = (500, []) := by
  obtain ⟨e, he⟩ := params_to_ints_list_error (splitOnComma s.toList) hbad
  simp only [post_list, get_queryset, params_to_ints, if_neg hne, he]

/-- C5 witness: the concrete malformed parameter `1,a` on an empty post
table. -/
theorem post_list_bad_token_500_witness :
    ¬(("1,a" : String) = "") ∧
    (∃ t ∈ splitOnComma ("1,a" : String).toList,
      pythonIntChars t = Except.error PyError.valueError) ∧
    post_list [] (some "1,a") = (500, []) :=
  ⟨by decide, by decide, post_list_bad_token_500 [] "1,a" (by decide) (by decide)⟩

/-- Rows of the hashtag join all come from the underlying post table. -/
theorem mem_of_mem_joinHashtagsIn {x : Post} {posts : List Post}
    {ids : List Int} (h : x ∈ joinHashtagsIn posts ids) : x ∈ posts := by
  induction posts with
  | nil => simpa [joinHashtagsIn] using h
  | cons p rest ih =>
    unfold joinHashtagsIn at h
    rcases List.mem_append.mp h with hl | hr
    · obtain ⟨a, _, rfl⟩ := List.mem_map.mp hl
      exact List.mem_cons_self _ _
    · exact List.mem_cons_of_mem _ (ih hr)

/-- Unfolding equation of `distinctByPk` on the empty row list. -/
theorem distinctByPk_nil : distinctByPk [] = [] := by
  rw [distinctByPk]

/-- Unfolding equation of `distinctByPk` on a nonempty row list. -/
theorem distinctByPk_cons (p : Post) (rest : List Post) :
    distinctByPk (p :: rest) =
      p :: distinctByPk (rest.filter (fun q => decide (q.pk ≠ p.pk))) := by
  rw [distinctByPk]

/-- On a table whose primary keys are distinct, `DISTINCT` is the
identity. -/
theorem distinctByPk_of_nodup (posts : List Post)
    (h : (posts.map Post.pk).Nodup) : distinctByPk posts = posts := by
  induction posts with
  | nil => exact distinctByPk_nil
  | cons p rest ih =>
    obtain ⟨hpk, hrest⟩ : (∀ x ∈ rest, ¬ x.pk = p.pk) ∧
        (rest.map Post.pk).Nodup := by simpa using h
    have hfil : rest.filter (fun q => decide (q.pk ≠ p.pk)) = rest :=
      List.filter_eq_self.mpr (by
        intro q hq
        simpa using hpk q hq)
    rw [distinctByPk_cons, hfil, ih hrest]

/-- The deduplicated hashtag join is exactly the posts whose hashtag set
meets the requested id list, each post once, in table order. -/
theorem distinctByPk_joinHashtagsIn (posts : List Post) (ids : List Int)
    (h : (posts.map Post.pk).Nodup) :
    distinctByPk (joinHashtagsIn posts ids) =
      posts.filter (fun q => q.hashtags.any (fun t => ids.contains t)) := by
  induction posts with
  | nil => exact distinctByPk_nil
  | cons p rest ih =>
    obtain ⟨hpk, hrest⟩ : (∀ x ∈ rest, ¬ x.pk = p.pk) ∧
        (rest.map Post.pk).Nodup := by simpa using h
    have hj : joinHashtagsIn (p :: rest) ids =
        ((p.hashtags.filter (fun t => ids.contains t)).map (fun _ => p))
          ++ joinHashtagsIn rest ids := rfl
    cases hcase : p.hashtags.filter (fun t => ids.contains t) with
    | nil =>
      have hany : (p.hashtags.any (fun t => ids.contains t)) = false := by
        rw [List.any_eq_false]
        intro x hx
        simpa using List.filter_eq_nil_iff.mp hcase x hx
      rw [hj, hcase]
      simp only [List.map_nil, List.nil_append, List.filter_cons, hany,
        Bool.false_eq_true, if_false]
      exact ih hrest
    | cons t0 ts =>
      have hany : (p.hashtags.any (fun t => ids.contains t)) = true := by
        rw [List.any_eq_true]
        have ht0 : t0 ∈ p.hashtags.filter (fun t => ids.contains t) := by
          rw [hcase]; exact List.mem_cons_self _ _
        obtain ⟨ht0mem, ht0p⟩ := List.mem_filter.mp ht0
        exact ⟨t0, ht0mem, ht0p⟩
      rw [hj, hcase]
      simp only [List.map_cons, List.cons_append]
      rw [distinctByPk_cons, List.filter_append]
      have h1 : (ts.map (fun _ => p)).filter
          (fun q => decide (q.pk ≠ p.pk)) = [] :=
        List.filter_eq_nil_iff.mpr (by
          intro x hx
          obtain ⟨a, _, rfl⟩ := List.mem_map.mp hx
          simp)
      have h2 : (joinHashtagsIn rest ids).filter
          (fun q => decide (q.pk ≠ p.pk)) = joinHashtagsIn rest ids :=
        List.filter_eq_self.mpr (by
          intro x hx
          have hxr : x ∈ rest := mem_of_mem_joinHashtagsIn hx
          simpa using hpk x hxr)
      rw [h1, h2, List.nil_append, ih hrest]
      simp only [List.filter_cons, hany, if_true]

/-- C6: with a well-formed comma-separated integer list, the post listing is
exactly the distinct posts whose hashtag set intersects the requested ids,
each appearing once; with no hashtags parameter every post is returned. -/
theorem get_queryset_filters_by_hashtags (posts : List Post) (s : String)
    (ids : List Int) (hne : ¬(s = ""))
    (hparse : params_to_ints s = Except.ok ids)
    (hnodup : (posts.map Post.pk).Nodup) :
    get_queryset posts (some s) =
      Except.ok (posts.filter
        (fun q => q.hashtags.any (fun t => ids.contains t))) ∧
    get_queryset posts none = Except.ok posts := by
  constructor
  · simp only [get_queryset, if_neg hne, hparse]
    rw [distinctByPk_joinHashtagsIn posts ids hnodup]
  · simp only [get_queryset]
    rw [distinctByPk_of_nodup posts hnodup]

/-- C6 witness: three posts with distinct primary keys, filtered by
`?hashtags=2,5`; posts 1 and 3 intersect the list, post 2 does not. -/
theorem get_queryset_filters_witness :
    ¬(("2,5" : String) = "") ∧
    params_to_ints "2,5" = Except.ok [2, 5] ∧
    (([⟨1, 7, "a", none, [1, 2]⟩, ⟨2, 7, "b", none, [3]⟩,
       ⟨3, 8, "c", none, [2, 5]⟩] : List Post).map Post.pk).Nodup ∧
    (get_queryset [⟨1, 7, "a", none, [1, 2]⟩, ⟨2, 7, "b", none, [3]⟩,
        ⟨3, 8, "c", none, [2, 5]⟩] (some "2,5") =
      Except.ok (([⟨1, 7, "a", none, [1, 2]⟩, ⟨2, 7, "b", none, [3]⟩,
        ⟨3, 8, "c", none, [2, 5]⟩] : List Post).filter
          (fun q => q.hashtags.any (fun t => ([2, 5] : List Int).contains t))) ∧
     get_queryset [⟨1, 7, "a", none, [1, 2]⟩, ⟨2, 7, "b", none, [3]⟩,
        ⟨3, 8, "c", none, [2, 5]⟩] none =
      Except.ok [⟨1, 7, "a", none, [1, 2]⟩, ⟨2, 7, "b", none, [3]⟩,
        ⟨3, 8, "c", none, [2, 5]⟩]) :=
  ⟨by decide, by decide, by decide,
   get_queryset_filters_by_hashtags
     [⟨1, 7, "a", none, [1, 2]⟩, ⟨2, 7, "b", none, [3]⟩,
      ⟨3, 8, "c", none, [2, 5]⟩] "2,5" [2, 5]
     (by decide) (by decide) (by decide)⟩

/-- The at-most-one-like invariant transfers along sublists. -/
theorem likeInv_sublist {ls ls2 : List LikeRec} (hsub : List.Sublist ls2 ls)
    (h : likeInv ls) : likeInv ls2 := by
  intro p u
  exact le_trans (hsub.filter _).length_le (h p u)

/-- Appending a like for a pair with no existing row keeps the invariant. -/
theorem likeInv_append_new (ls : List LikeRec) (p u : Nat)
    (hfil : ls.filter (likePred p u) = []) (h : likeInv ls) :
    likeInv (ls ++ [⟨p, u, true⟩]) := by
  intro p0 u0
  rw [List.filter_append]
  by_cases hpp : likePred p0 u0 ⟨p, u, true⟩ = true
  · have hp : p = p0 ∧ u = u0 := by simpa [likePred] using hpp
    obtain ⟨rfl, rfl⟩ := hp
    rw [hfil]
    simp [likePred]
  · have hone : ([(⟨p, u, true⟩ : LikeRec)].filter (likePred p0 u0)) = [] := by
      simp only [List.filter_cons, List.filter_nil]
      rw [if_neg hpp]
    rw [hone, List.append_nil]
    exact h p0 u0

/-- C7: at every state reachable through the operations of the system —
the like toggle, post-deletion cascade, the (never definable) Like resource
create, and the remaining operations that do not touch the Like table — each
(post, user) pair owns at most one Like row. -/
theorem like_at_most_one_per_pair (s : List LikeRec) (h : LikeReachable s) :
    likeInv s := by
  induction h with
  | init => intro p u; simp
  | step s a hs ih =>
    cases a with
    | toggle p u =>
      cases hfil : s.filter (likePred p u) with
      | nil =>
        have hstep : applyLikeStep s (LikeStep.toggle p u) =
            s ++ [⟨p, u, true⟩] := by
          simp [applyLikeStep, likes, hfil]
        rw [hstep]
        exact likeInv_append_new s p u hfil ih
      | cons x xs =>
        cases xs with
        | nil =>
          have hstep : applyLikeStep s (LikeStep.toggle p u) =
              s.eraseP (likePred p u) := by
            simp [applyLikeStep, likes, hfil]
          rw [hstep]
          exact likeInv_sublist (List.eraseP_sublist s) ih
        | cons y ys =>
          have hstep : applyLikeStep s (LikeStep.toggle p u) = s := by
            simp [applyLikeStep, likes, hfil]
          rw [hstep]
          exact ih
    | cascadeDelete p =>
      exact likeInv_sublist (List.filter_sublist s) ih
    | likeCreate p u f =>
      have hstep : applyLikeStep s (LikeStep.likeCreate p u f) = s := rfl
      rw [hstep]
      exact ih
    | other => exact ih

/-- C7 witness: the state reached from the empty store by one like toggle is
reachable and satisfies the invariant. -/
theorem like_at_most_one_per_pair_witness :
    LikeReachable (applyLikeStep [] (LikeStep.toggle 1 2)) ∧
    likeInv (applyLikeStep [] (LikeStep.toggle 1 2)) :=
  ⟨LikeReachable.step [] (LikeStep.toggle 1 2) LikeReachable.init,
   like_at_most_one_per_pair (applyLikeStep [] (LikeStep.toggle 1 2))
     (LikeReachable.step [] (LikeStep.toggle 1 2) LikeReachable.init)⟩

/-- After the create path ran for a user absent from the table, looking the
user up finds exactly the updated row. -/
theorem find?_profile_update_append (profiles : List ProfileRec) (u : Nat)
    (updated fresh : ProfileRec) (hu : updated.userPk = u)
    (hf : profiles.find? (fun p => p.userPk == u) = none)
    (hfr : fresh.userPk = u) :
    (profile_update (profiles ++ [fresh]) u updated).find?
      (fun p => p.userPk == u) = some updated := by
  induction profiles with
  | nil => simp [profile_update, hfr, hu]
  | cons q rest ih =>
    have hall := List.find?_eq_none.mp hf
    have hqf : (q.userPk == u) = false := by
      have := hall q (List.mem_cons_self _ _)
      simpa using this
    have hrestnone : rest.find? (fun p => p.userPk == u) = none :=
      List.find?_eq_none.mpr (fun a ha => hall a (List.mem_cons_of_mem _ ha))
    have hqne : ¬ (q.userPk = u) := by simpa using hqf
    have hhead : profile_update ((q :: rest) ++ [fresh]) u updated =
        q :: profile_update (rest ++ [fresh]) u updated := by
      simp [profile_update, hqne]
    rw [hhead]
    rw [List.find?_cons, hqf]
    exact ih hrestnone

/-- C8: running the Profile create path twice for the same user changes
nothing the second time: the store after the second call is the store after
the first, the second payload is discarded, and the row returned is the row
the first call produced — so no second Profile record ever appears. -/
theorem perform_create_idempotent (profiles : List ProfileRec) (u : Nat)
    (p1 p2 : ProfilePayload) :
    perform_create (perform_create profiles u p1).1 u p2 =
      perform_create profiles u p1 := by
  cases hf : profiles.find? (fun p => p.userPk == u) with
  | some p =>
    have h1 : perform_create profiles u p1 = (profiles, p) := by
      simp [perform_create, hf]
    rw [h1]
    simp [perform_create, hf]
  | none =>
    have h1 : perform_create profiles u p1 =
        (profile_update (profiles ++ [⟨u, none, none, none, none, []⟩]) u
          ⟨u, p1.first_name, p1.last_name, p1.bio, p1.email, p1.follow⟩,
         ⟨u, p1.first_name, p1.last_name, p1.bio, p1.email, p1.follow⟩) := by
      simp [perform_create, hf]
    have h2 := find?_profile_update_append profiles u
      ⟨u, p1.first_name, p1.last_name, p1.bio, p1.email, p1.follow⟩
      ⟨u, none, none, none, none, []⟩ rfl hf rfl
    rw [h1]
    simp [perform_create, h2]

/-- C9: the comment listing of user A is computed from A-authored rows only:
two stores agreeing on A's comments produce identical listings for A, and no
listed comment is authored by any other user B. -/
theorem comment_list_isolation (A B : Nat) (cs cs2 : List CommentRec)
    (hAB : A ≠ B)
    (hagree : cs.filter (fun c => c.userPk == A) =
      cs2.filter (fun c => c.userPk == A)) :
    comment_list cs A = comment_list cs2 A ∧
    ∀ c ∈ comment_list cs A, c.userPk = A ∧ c.userPk ≠ B := by
  constructor
  · exact hagree
  · intro c hc
    have hm := List.mem_filter.mp hc
    have hA : c.userPk = A := by simpa using hm.2
    exact ⟨hA, by rw [hA]; exact hAB⟩

/-- C9 witness: users 1 and 2 have both commented on post 5; the listing for
user 1 ignores the row of user 2 entirely. -/
theorem comment_list_isolation_witness :
    (1 : Nat) ≠ 2 ∧
    ([⟨1, 5, 1, "hi"⟩, ⟨2, 5, 2, "yo"⟩] : List CommentRec).filter
      (fun c => c.userPk == 1) =
      ([⟨1, 5, 1, "hi"⟩] : List CommentRec).filter (fun c => c.userPk == 1) ∧
    (comment_list [⟨1, 5, 1, "hi"⟩, ⟨2, 5, 2, "yo"⟩] 1 =
      comment_list [⟨1, 5, 1, "hi"⟩] 1 ∧
     ∀ c ∈ comment_list [⟨1, 5, 1, "hi"⟩, ⟨2, 5, 2, "yo"⟩] 1,
       c.userPk = 1 ∧ c.userPk ≠ 2) :=
  ⟨by decide, by decide,
   comment_list_isolation 1 2 [⟨1, 5, 1, "hi"⟩, ⟨2, 5, 2, "yo"⟩]
     [⟨1, 5, 1, "hi"⟩] (by decide) (by decide)⟩

end Social
